import Mathlib

/-!
Shallow embedding of the Statistics Access Layer of `stadata_x`
(`src/stadata_x/api_client.py`): the retrying invoker, the domain cache,
the dynamic-metadata aggregator with its domain-`"0000"` fallback, the
fixed-width datacontent key decoder, the table cleaner and the export
(download) path-conflict guard.  Python exceptions are modelled as
explicit error values (`Except`), blocking calls as pure functions given
their outcomes as inputs, and the observable side effects of a call
(number of provider invocations, sleeps performed, cache writes, bytes
at the destination path) are returned in explicit outcome records.
-/

namespace StadataX

instance {ε α : Type} [DecidableEq ε] [DecidableEq α] : DecidableEq (Except ε α) := fun a b =>
  match a, b with
  | .ok x, .ok y => decidable_of_iff (x = y) (by simp)
  | .ok _, .error _ => isFalse (by simp)
  | .error _, .ok _ => isFalse (by simp)
  | .error e, .error f => decidable_of_iff (e = f) (by simp)

/-- An exception coming out of a provider call, as distinguished by the
Python `except` clauses in `api_client.py`: `requests` `HTTPError` with a
status code, `ConnectionError`, `Timeout`, or any other exception. -/
inductive PyExc
  | httpError (status : Nat)
  | connectionError
  | timeout
  | otherError
deriving DecidableEq, Repr

/-- What `_api_call_with_retry` can terminate with: either an exception
re-raised from an attempt (`raised`), or the `BpsServerError` raised after
the `for` loop at line 106 of `api_client.py`. -/
inductive RetryErr
  | raised (e : PyExc)
  | bpsServerError
deriving DecidableEq, Repr

/-- Observable outcome of one call to `_api_call_with_retry`: the returned
value or terminating exception, the number of invocations of the wrapped
`api_function`, and the list of sleep delays performed, in order. -/
structure RetryTrace (α : Type) where
  result : Except RetryErr α
  calls : Nat
  sleeps : List Nat
deriving Repr

/-- `max_retries = 3` in `_api_call_with_retry`. -/
def maxRetries : Nat := 3

/-- `base_delay = 1` in `_api_call_with_retry`. -/
def baseDelay : Nat := 1

/-- The body of the `for attempt in range(max_retries)` loop of
`_api_call_with_retry`.  `op attempt` is the outcome of invoking the
wrapped `api_function` on that attempt.  `fuel` is the number of loop
iterations left (`max_retries - attempt`); when it reaches `0` the loop
has ended and line 106 raises `BpsServerError`.  On an `HTTPError` with
status 429 and `attempt < max_retries - 1`, the loop sleeps
`base_delay * 2 ** attempt` and continues; every other exception, and a
final-attempt 429, is re-raised. -/
def retryGo (op : Nat → Except PyExc α) : Nat → Nat → Nat → List Nat → RetryTrace α
  | 0, _, calls, sleeps => ⟨.error .bpsServerError, calls, sleeps⟩
  | fuel + 1, attempt, calls, sleeps =>
    match op attempt with
    | .ok r => ⟨.ok r, calls + 1, sleeps⟩
    | .error (.httpError s) =>
      if s = 429 ∧ attempt < maxRetries - 1 then
        retryGo op fuel (attempt + 1) (calls + 1) (sleeps ++ [baseDelay * 2 ^ attempt])
      else ⟨.error (.raised (.httpError s)), calls + 1, sleeps⟩
    | .error e => ⟨.error (.raised e), calls + 1, sleeps⟩

/-- `ApiClient._api_call_with_retry`: run the retry loop from attempt 0
with no calls made and no sleeps performed yet. -/
def apiCallWithRetry (op : Nat → Except PyExc α) : RetryTrace α :=
  retryGo op maxRetries 0 0 []

end StadataX

namespace StadataX

/-- C1: for an operation raising HTTP 429 on all 3 attempts,
`_api_call_with_retry` makes exactly 3 invocations (no 4th attempt) but
terminates by re-raising the `HTTPError` 429 from the third attempt, not
by raising `BpsServerError`: the `raise BpsServerError(...)` at line 106
is unreachable on this path.  The claim's `ServerUnavailable` outcome
does not occur. -/
theorem retry_allRateLimited_reraises_429 :
    apiCallWithRetry (α := Nat) (fun _ => .error (.httpError 429)) =
      ⟨.error (.raised (.httpError 429)), 3, [1, 2]⟩ := by
  rfl

/-- C2: for an operation raising HTTP 429 on exactly the first two
attempts and succeeding on the third, `_api_call_with_retry` returns the
successful result, sleeps exactly twice with delays
`base_delay * 2 ** 0 = 1` and `base_delay * 2 ** 1 = 2`, and invokes the
operation no more than 3 times. -/
theorem retry_twoRateLimitsThenSuccess {α : Type} (op : Nat → Except PyExc α) (v : α)
    (h0 : op 0 = .error (.httpError 429)) (h1 : op 1 = .error (.httpError 429))
    (h2 : op 2 = .ok v) :
    (apiCallWithRetry op).result = .ok v ∧
    (apiCallWithRetry op).sleeps = [baseDelay * 2 ^ 0, baseDelay * 2 ^ 1] ∧
    (apiCallWithRetry op).sleeps = [1, 2] ∧
    (apiCallWithRetry op).calls ≤ 3 := by
  simp [apiCallWithRetry, retryGo, maxRetries, baseDelay, h0, h1, h2]

/-- Witness for C2 at a concrete operation: 429 twice then the value 7. -/
theorem retry_twoRateLimitsThenSuccess_witness :
    (apiCallWithRetry (fun n => if n < 2 then .error (.httpError 429) else .ok 7)).result
      = .ok 7 :=
  (retry_twoRateLimitsThenSuccess
    (fun n => if n < 2 then .error (.httpError 429) else .ok (7 : Nat)) 7
    rfl rfl rfl).1

/-- A domain record `{id, name}` as cached in `domain_cache.json`. -/
structure Domain where
  id : String
  name : String
deriving DecidableEq, Repr

/-- `CACHE_DURATION = timedelta(days=7)`, measured here in days. -/
def cacheDurationDays : Nat := 7

/-- The state of the cache file as `list_domains` observes it:
whether `CACHE_FILE.exists()`, the file's age (`now - mtime`) in days,
and the outcome of reading and JSON-decoding it (`none` models `IOError`
or `json.JSONDecodeError`, including a failing `stat`). -/
structure CacheState where
  cacheExists : Bool
  cacheAgeDays : Nat
  cacheParse : Option (List Domain)
deriving Repr

/-- An error raised out of `list_domains`: `ApiTokenError`,
`NoInternetError`, `BpsServerError`, or an exception re-raised
unclassified (an `HTTPError` that is neither 401 nor ≥ 500, or any
other exception). -/
inductive DomainsErr
  | apiTokenError
  | noInternetError
  | bpsServerError
  | reraised (e : PyExc)
deriving DecidableEq, Repr

/-- Observable outcome of one call to `list_domains`: the returned
domain list or raised error, the number of invocations of
`self.client.list_domain`, and whether the cache file was rewritten. -/
structure DomainsOutcome where
  result : Except DomainsErr (List Domain)
  providerCalls : Nat
  cacheWritten : Bool
deriving Repr

/-- The `try ... except` block around the fetch in `list_domains`: a
non-empty fetched list rewrites the cache file and is returned; the
`except` clauses reclassify `ConnectionError`/`Timeout` to
`NoInternetError`, HTTP 401 to `ApiTokenError` and HTTP ≥ 500 to
`BpsServerError`; other `HTTPError`s are re-raised, and the
`BpsServerError` from the retry wrapper propagates uncaught. -/
def classifyFetch (t : RetryTrace (List Domain)) : DomainsOutcome :=
  match t.result with
  | .ok df => ⟨.ok df, t.calls, !df.isEmpty⟩
  | .error (.raised .connectionError) => ⟨.error .noInternetError, t.calls, false⟩
  | .error (.raised (.httpError s)) =>
    if s = 401 then ⟨.error .apiTokenError, t.calls, false⟩
    else if 500 ≤ s then ⟨.error .bpsServerError, t.calls, false⟩
    else ⟨.error (.reraised (.httpError s)), t.calls, false⟩
  | .error (.raised .timeout) => ⟨.error .noInternetError, t.calls, false⟩
  | .error (.raised .otherError) => ⟨.error (.reraised .otherError), t.calls, false⟩
  | .error .bpsServerError => ⟨.error .bpsServerError, t.calls, false⟩

/-- `ApiClient.list_domains`.  First the cache path: if the cache file
exists and its age is under `CACHE_DURATION`, the parsed content is
returned (a read/parse failure is swallowed by `except (IOError,
json.JSONDecodeError): pass`).  On a miss, a missing token raises
`ApiTokenError`; otherwise `self.client.list_domain` is fetched through
`_api_call_with_retry` and handled by `classifyFetch`. -/
def listDomains (isReady : Bool) (fs : CacheState)
    (provider : Nat → Except PyExc (List Domain)) : DomainsOutcome :=
  let cacheHit : Option (List Domain) :=
    if fs.cacheExists then
      if fs.cacheAgeDays < cacheDurationDays then fs.cacheParse else none
    else none
  match cacheHit with
  | some data => ⟨.ok data, 0, false⟩
  | none =>
    if !isReady then ⟨.error .apiTokenError, 0, false⟩
    else classifyFetch (apiCallWithRetry provider)

/-- Reclassification never changes the number of provider invocations. -/
theorem classifyFetch_providerCalls (t : RetryTrace (List Domain)) :
    (classifyFetch t).providerCalls = t.calls := by
  rcases ht : t.result with e | r
  · rcases e with e | _
    · rcases e with s | _ | _ | _
      · simp only [classifyFetch, ht]
        split
        · rfl
        · split <;> rfl
      · simp [classifyFetch, ht]
      · simp [classifyFetch, ht]
      · simp [classifyFetch, ht]
    · simp [classifyFetch, ht]
  · simp [classifyFetch, ht]

/-- The retry loop always invokes the wrapped operation at least once
when it still has fuel. -/
theorem retryGo_calls_pos {α : Type} (op : Nat → Except PyExc α) :
    ∀ (fuel attempt calls : Nat) (sleeps : List Nat), 0 < fuel →
      calls + 1 ≤ (retryGo op fuel attempt calls sleeps).calls := by
  intro fuel
  induction fuel with
  | zero => intro _ _ _ h; exact absurd h (by simp)
  | succ n ih =>
    intro attempt calls sleeps _
    rcases hop : op attempt with e | r
    · rcases e with s | _ | _ | _ <;> simp only [retryGo, hop]
      · split
        · rcases Nat.eq_zero_or_pos n with hn | hn
          · subst hn; simp [retryGo]
          · exact Nat.le_trans (Nat.le_succ _) (ih _ (calls + 1) _ hn)
        · simp
      · simp
      · simp
      · simp
    · simp [retryGo, hop]

/-- `_api_call_with_retry` invokes the wrapped operation at least once. -/
theorem apiCallWithRetry_calls_pos {α : Type} (op : Nat → Except PyExc α) :
    1 ≤ (apiCallWithRetry op).calls :=
  retryGo_calls_pos op maxRetries 0 0 [] (by decide)

/-- C3: for a cache file that exists, is strictly under 7 days old and
deserializes successfully, `list_domains` returns the cached domain list
and never invokes the provider. -/
theorem listDomains_freshCache_noProviderCall (isReady : Bool) (fs : CacheState)
    (provider : Nat → Except PyExc (List Domain)) (data : List Domain)
    (hex : fs.cacheExists = true) (hage : fs.cacheAgeDays < cacheDurationDays)
    (hparse : fs.cacheParse = some data) :
    listDomains isReady fs provider = ⟨.ok data, 0, false⟩ := by
  simp [listDomains, hex, hage, hparse]

/-- Witness for C3: a 3-day-old cache holding one domain is served with
zero provider calls, for a client that is ready. -/
theorem listDomains_freshCache_noProviderCall_witness :
    listDomains true ⟨true, 3, some [⟨"0000", "INDONESIA"⟩]⟩
        (fun _ => .error .timeout) =
      ⟨.ok [⟨"0000", "INDONESIA"⟩], 0, false⟩ :=
  listDomains_freshCache_noProviderCall true ⟨true, 3, some [⟨"0000", "INDONESIA"⟩]⟩
    (fun _ => .error .timeout) [⟨"0000", "INDONESIA"⟩] rfl (by decide) rfl

/-- C9: the cache-freshness check precedes the credential check: with a
missing credential (`is_ready = false`) but a fresh, valid cache,
`list_domains` still returns the cached list (in particular it does not
raise `ApiTokenError`) and makes no provider call. -/
theorem listDomains_freshCache_ignoresMissingToken (fs : CacheState)
    (provider : Nat → Except PyExc (List Domain)) (data : List Domain)
    (hex : fs.cacheExists = true) (hage : fs.cacheAgeDays < cacheDurationDays)
    (hparse : fs.cacheParse = some data) :
    listDomains false fs provider = ⟨.ok data, 0, false⟩ ∧
    (listDomains false fs provider).result ≠ .error .apiTokenError := by
  refine ⟨listDomains_freshCache_noProviderCall false fs provider data hex hage hparse, ?_⟩
  rw [listDomains_freshCache_noProviderCall false fs provider data hex hage hparse]
  simp

/-- Witness for C9: a token-less client still serves a 0-day-old cache. -/
theorem listDomains_freshCache_ignoresMissingToken_witness :
    listDomains false ⟨true, 0, some [⟨"1100", "ACEH"⟩]⟩ (fun _ => .ok []) =
      ⟨.ok [⟨"1100", "ACEH"⟩], 0, false⟩ :=
  (listDomains_freshCache_ignoresMissingToken ⟨true, 0, some [⟨"1100", "ACEH"⟩]⟩
    (fun _ => .ok []) [⟨"1100", "ACEH"⟩] rfl (by decide) rfl).1

/-- C4: any cache state that is missing, at least 7 days old, or failing
to deserialize is treated exactly as a cache miss: `list_domains`
behaves as if no cache file existed (so no deserialization failure is
surfaced), it invokes the provider at least once, and whenever the
retried fetch succeeds with a non-empty list it rewrites the cache file
and returns that list. -/
theorem listDomains_staleOrCorrupt_isMiss (fs : CacheState)
    (provider : Nat → Except PyExc (List Domain))
    (hmiss : fs.cacheExists = false ∨ cacheDurationDays ≤ fs.cacheAgeDays ∨
      fs.cacheParse = none) :
    listDomains true fs provider = listDomains true ⟨false, 0, none⟩ provider ∧
    1 ≤ (listDomains true fs provider).providerCalls ∧
    (∀ data : List Domain, (apiCallWithRetry provider).result = .ok data → data ≠ [] →
      listDomains true fs provider =
        ⟨.ok data, (apiCallWithRetry provider).calls, true⟩) := by
  have hnohit : (if fs.cacheExists then
      if fs.cacheAgeDays < cacheDurationDays then fs.cacheParse else none
    else none) = (none : Option (List Domain)) := by
    rcases hmiss with h | h | h
    · simp [h]
    · simp [Nat.not_lt.mpr h]
    · rcases Bool.eq_false_or_eq_true fs.cacheExists with he | he <;> simp [he, h]
  have hsame : listDomains true fs provider = listDomains true ⟨false, 0, none⟩ provider := by
    simp [listDomains, hnohit]
  refine ⟨hsame, ?_, ?_⟩
  · have : listDomains true fs provider = classifyFetch (apiCallWithRetry provider) := by
      simp [listDomains, hnohit]
    rw [this, classifyFetch_providerCalls]
    exact apiCallWithRetry_calls_pos provider
  · intro data hok hne
    simp [listDomains, hnohit, classifyFetch, hok, hne]

/-- Witness for C4: an 8-day-old cache is bypassed; the provider answers
a non-empty list on the first attempt, which is returned and written to
the cache file. -/
theorem listDomains_staleOrCorrupt_isMiss_witness :
    listDomains true ⟨true, 8, some []⟩ (fun _ => .ok [⟨"0000", "INDONESIA"⟩]) =
      ⟨.ok [⟨"0000", "INDONESIA"⟩], 1, true⟩ :=
  (listDomains_staleOrCorrupt_isMiss ⟨true, 8, some []⟩
    (fun _ => .ok [⟨"0000", "INDONESIA"⟩]) (Or.inr (Or.inl (by decide)))).2.2
    [⟨"0000", "INDONESIA"⟩] rfl (by decide)

/-- Python's slice `l[a:b]` for `0 ≤ a ≤ b`, on the character list of a
string: take the first `b` elements, then drop the first `a`.
Out-of-range bounds clamp, exactly as Python slicing does. -/
def sliceL {α : Type} (l : List α) (a b : Nat) : List α := (l.take b).drop a

/-- Python's string slice `s[a:b]` for `0 ≤ a ≤ b`. -/
def strSlice (s : String) (a b : Nat) : String := ⟨sliceL s.data a b⟩

/-- The six decoded segments of a datacontent key, as assembled by
`_decode_datacontent_key`. -/
structure DataKeySegments where
  domain : String
  year : String
  vertical_group : String
  vertical_item : String
  horizontal : String
  derived : String
deriving DecidableEq, Repr

/-- `ApiClient._decode_datacontent_key`: positional slicing of the key
into `domain = key[0:4]`, `year = key[4:6]`, `vertical_group = key[6:8]`,
`vertical_item = key[8:13]`, `horizontal = key[13:16]`,
`derived = key[16:19]`. -/
def decodeDatacontentKey (key : String) : DataKeySegments where
  domain := strSlice key 0 4
  year := strSlice key 4 6
  vertical_group := strSlice key 6 8
  vertical_item := strSlice key 8 13
  horizontal := strSlice key 13 16
  derived := strSlice key 16 19

/-- Length of a Python slice: `min b (length l) - a`, clamped at 0. -/
theorem sliceL_length {α : Type} (l : List α) (a b : Nat) :
    (sliceL l a b).length = min b l.length - a := by
  simp [sliceL]

/-- Two adjacent Python slices concatenate to the enclosing slice, for
any list (bounds clamp). -/
theorem sliceL_append {α : Type} (l : List α) (a b c : Nat) (hab : a ≤ b) (hbc : b ≤ c) :
    sliceL l a b ++ sliceL l b c = sliceL l a c := by
  unfold sliceL
  have hb : l.drop b = (l.drop a).drop (b - a) := by
    rw [List.drop_drop]
    congr 1
    omega
  rw [List.drop_take b a l, List.drop_take c b l, List.drop_take c a l, hb, ← List.take_add]
  congr 1
  omega

/-- Length of a field of the decoded key, in terms of the key length. -/
theorem strSlice_length (s : String) (a b : Nat) :
    (strSlice s a b).length = min b s.length - a :=
  sliceL_length s.data a b

/-- The six decoded fields always concatenate to `key[0:19]`. -/
theorem decode_concat (key : String) :
    ((((((decodeDatacontentKey key).domain ++ (decodeDatacontentKey key).year) ++
      (decodeDatacontentKey key).vertical_group) ++
      (decodeDatacontentKey key).vertical_item) ++
      (decodeDatacontentKey key).horizontal) ++
      (decodeDatacontentKey key).derived) = strSlice key 0 19 := by
  show (⟨(((((sliceL key.data 0 4 ++ sliceL key.data 4 6) ++ sliceL key.data 6 8) ++
      sliceL key.data 8 13) ++ sliceL key.data 13 16) ++ sliceL key.data 16 19 : List Char)⟩ :
    String) = ⟨sliceL key.data 0 19⟩
  rw [sliceL_append key.data 0 4 6 (by omega) (by omega),
    sliceL_append key.data 0 6 8 (by omega) (by omega),
    sliceL_append key.data 0 8 13 (by omega) (by omega),
    sliceL_append key.data 0 13 16 (by omega) (by omega),
    sliceL_append key.data 0 16 19 (by omega) (by omega)]

/-- C5: for every key of length at least 19, `_decode_datacontent_key`
returns exactly the segments of the fixed half-open ranges: the six
fields have lengths 4, 2, 2, 5, 3, 3 and concatenate, in order, to the
first 19 characters of the key; and decoding the concrete key
`"0000230100001001000"` yields domain `"0000"`, year `"23"`,
vertical_group `"01"`, vertical_item `"00001"`, horizontal `"001"`,
derived `"000"`. -/
theorem decode_key_fixed_ranges (key : String) (h : 19 ≤ key.length) :
    ((decodeDatacontentKey key).domain.length = 4 ∧
     (decodeDatacontentKey key).year.length = 2 ∧
     (decodeDatacontentKey key).vertical_group.length = 2 ∧
     (decodeDatacontentKey key).vertical_item.length = 5 ∧
     (decodeDatacontentKey key).horizontal.length = 3 ∧
     (decodeDatacontentKey key).derived.length = 3 ∧
     (((((decodeDatacontentKey key).domain ++ (decodeDatacontentKey key).year) ++
       (decodeDatacontentKey key).vertical_group) ++
       (decodeDatacontentKey key).vertical_item) ++
       (decodeDatacontentKey key).horizontal) ++
       (decodeDatacontentKey key).derived = strSlice key 0 19) ∧
    decodeDatacontentKey "0000230100001001000" =
      ⟨"0000", "23", "01", "00001", "001", "000"⟩ := by
  refine ⟨⟨?_, ?_, ?_, ?_, ?_, ?_, decode_concat key⟩, by decide⟩ <;>
    simp [decodeDatacontentKey, strSlice_length] <;> omega

/-- Witness for C5 at the concrete 19-character key from the spec. -/
theorem decode_key_fixed_ranges_witness :
    19 ≤ ("0000230100001001000" : String).length ∧
    (decodeDatacontentKey "0000230100001001000").domain.length = 4 :=
  ⟨by decide, (decode_key_fixed_ranges "0000230100001001000" (by decide)).1.1⟩

/-- C10: `_decode_datacontent_key` is total over all strings: every
input, however short, yields a record with exactly the six fields, each
the clamped Python slice of its fixed range (so shorter keys give
shortened or empty segments, and nothing is raised); the fields always
concatenate to the clamped `key[0:19]`. -/
theorem decode_key_total (key : String) :
    (decodeDatacontentKey key).domain.length = min 4 key.length ∧
    (decodeDatacontentKey key).year.length = min 6 key.length - 4 ∧
    (decodeDatacontentKey key).vertical_group.length = min 8 key.length - 6 ∧
    (decodeDatacontentKey key).vertical_item.length = min 13 key.length - 8 ∧
    (decodeDatacontentKey key).horizontal.length = min 16 key.length - 13 ∧
    (decodeDatacontentKey key).derived.length = min 19 key.length - 16 ∧
    (((((decodeDatacontentKey key).domain ++ (decodeDatacontentKey key).year) ++
      (decodeDatacontentKey key).vertical_group) ++
      (decodeDatacontentKey key).vertical_item) ++
      (decodeDatacontentKey key).horizontal) ++
      (decodeDatacontentKey key).derived = strSlice key 0 19 := by
  refine ⟨?_, ?_, ?_, ?_, ?_, ?_, decode_concat key⟩ <;>
    simp [decodeDatacontentKey, strSlice_length]

/-- One normalized reference-list item as produced by `extract_list` in
`get_dynamic_table_metadata`: a dict holding a subset of the uniform
target fields `id`, `label`, `code`, `group`, `group_name` (a field is
`none` when its source key was absent). -/
structure VariableOption where
  id : Option String := none
  label : Option String := none
  code : Option String := none
  group : Option String := none
  group_name : Option String := none
deriving DecidableEq, Repr

/-- The dict returned by `fetch_for_domain`: four normalized reference
lists plus the domain they were fetched against. -/
structure DynamicMetadata where
  vertical_vars : List VariableOption
  horizontal_vars : List VariableOption
  years : List VariableOption
  derived_years : List VariableOption
  source_domain : String
deriving DecidableEq, Repr

/-- The truthiness test `metadata["vertical_vars"] and
metadata["horizontal_vars"] and metadata["years"]`: the three required
lists are all non-empty. -/
def metadataComplete (m : DynamicMetadata) : Bool :=
  !m.vertical_vars.isEmpty && !m.horizontal_vars.isEmpty && !m.years.isEmpty

/-- The error raised by the aggregation tail of
`get_dynamic_table_metadata`: `BpsApiDataError` ("Metadata tabel dinamis
tidak tersedia untuk parameter tersebut."). -/
inductive MetadataErr
  | bpsApiDataError
deriving DecidableEq, Repr

/-- The fallback-and-validation tail of
`ApiClient.get_dynamic_table_metadata` (lines 267–281 of
`api_client.py`), with the network part `fetch_for_domain` abstracted as
the function `fetchFn` from a domain id to the metadata dict fetched for
it.  If the requested domain's result is missing any of the three
required lists and the domain is not `"0000"`, the full four-way fetch
is re-run against `"0000"`; a complete fallback result replaces the
original and its `source_domain` is overwritten to `"0000"`.  If the
required lists are still not all non-empty, `BpsApiDataError` is
raised. -/
def resolveMetadata (fetchFn : String → DynamicMetadata)
    (domain_id : String) : DynamicMetadata :=
  let metadata := fetchFn domain_id
  if !metadataComplete metadata && domain_id ≠ "0000" then
    let fallback_metadata := fetchFn "0000"
    if metadataComplete fallback_metadata then
      { fallback_metadata with source_domain := "0000" }
    else metadata
  else metadata

/-- The final validation of `get_dynamic_table_metadata`: raise
`BpsApiDataError` when the resolved metadata is still incomplete,
otherwise return it. -/
def getDynamicTableMetadata (fetchFn : String → DynamicMetadata)
    (domain_id : String) : Except MetadataErr DynamicMetadata :=
  if !metadataComplete (resolveMetadata fetchFn domain_id) then .error .bpsApiDataError
  else .ok (resolveMetadata fetchFn domain_id)

/-- C6: for a requested domain other than `"0000"` whose fetched result
is missing one of the three required lists, `get_dynamic_table_metadata`
resolves against the `"0000"` fetch: when that fallback is complete it
is returned with `source_domain = "0000"`; when it is incomplete the
original result is kept, and since the lists are then still not all
non-empty the call raises `BpsApiDataError`.  Moreover any successful
return of the aggregator is complete. -/
theorem getMetadata_fallback (fetchFn : String → DynamicMetadata) (domain_id : String)
    (hdom : domain_id ≠ "0000") (hinc : metadataComplete (fetchFn domain_id) = false) :
    (metadataComplete (fetchFn "0000") = true →
      getDynamicTableMetadata fetchFn domain_id =
        .ok { fetchFn "0000" with source_domain := "0000" }) ∧
    (metadataComplete (fetchFn "0000") = false →
      getDynamicTableMetadata fetchFn domain_id = .error .bpsApiDataError) ∧
    (∀ m : DynamicMetadata, getDynamicTableMetadata fetchFn domain_id = .ok m →
      metadataComplete m = true) := by
  refine ⟨?_, ?_, ?_⟩
  · intro hfb
    have hres : resolveMetadata fetchFn domain_id =
        { fetchFn "0000" with source_domain := "0000" } := by
      simp [resolveMetadata, hinc, hdom, hfb]
    have hc : metadataComplete { fetchFn "0000" with source_domain := "0000" } = true := by
      simpa [metadataComplete] using hfb
    simp [getDynamicTableMetadata, hres, hc]
  · intro hfb
    have hres : resolveMetadata fetchFn domain_id = fetchFn domain_id := by
      simp [resolveMetadata, hinc, hdom, hfb]
    simp [getDynamicTableMetadata, hres, hinc]
  · intro m hm
    rw [getDynamicTableMetadata] at hm
    cases hres : metadataComplete (resolveMetadata fetchFn domain_id) with
    | false => simp [hres] at hm
    | true =>
      simp [hres] at hm
      subst hm
      exact hres

/-- Witness for C6: an incomplete result for domain `"1100"` together
with a complete `"0000"` result yields the `"0000"` lists with
`source_domain = "0000"`. -/
theorem getMetadata_fallback_witness :
    getDynamicTableMetadata
        (fun d => if d = "0000" then
          ⟨[{ id := some "1" }], [{ id := some "2" }], [{ label := some "2023" }], [], "0000"⟩
        else ⟨[], [], [], [], d⟩) "1100" =
      .ok ⟨[{ id := some "1" }], [{ id := some "2" }], [{ label := some "2023" }], [], "0000"⟩ :=
  ((getMetadata_fallback
    (fun d => if d = "0000" then
      ⟨[{ id := some "1" }], [{ id := some "2" }], [{ label := some "2023" }], [], "0000"⟩
    else ⟨[], [], [], [], d⟩) "1100" (by decide) (by decide)).1 (by decide))

/-- A pandas value as `_clean_bps_dataframe` distinguishes them: `NaN`
(`pd.isna`) or an ordinary value, kept here as its `str(...)` form. -/
inductive PyVal
  | na
  | str (s : String)
deriving DecidableEq, Repr

/-- `pd.isna` on a single value. -/
def PyVal.isna : PyVal → Bool
  | .na => true
  | .str _ => false

/-- The column index of a DataFrame: flat labels, or a `pd.MultiIndex`
of label tuples (hierarchical headers). -/
inductive Cols
  | flat (labels : List PyVal)
  | multi (labels : List (List PyVal))
deriving DecidableEq, Repr

/-- Number of columns of an index. -/
def colCount : Cols → Nat
  | .flat labels => labels.length
  | .multi labels => labels.length

/-- A pandas DataFrame as the export pipeline sees it: a column index
and positional rows of cells.  `reset_index(drop=True)` renumbers the
row index contiguously, which in this positional representation is the
identity. -/
structure Table where
  columns : Cols
  rows : List (List PyVal)
deriving DecidableEq, Repr

/-- `df.empty`: some axis has length 0. -/
def tableEmpty (df : Table) : Bool :=
  df.rows.isEmpty || colCount df.columns == 0

/-- Flattening of one MultiIndex column tuple in `_clean_bps_dataframe`:
`' '.join(str(x) for x in col if pd.notna(x) and str(x) != 'nan')`
followed by `.strip()`. -/
def flattenLabel (col : List PyVal) : PyVal :=
  .str (String.trim (String.intercalate " " (col.filterMap (fun x =>
    match x with
    | .na => none
    | .str s => if s = "nan" then none else some s))))

/-- The positional-fallback renaming in `_clean_bps_dataframe`:
`f"Unnamed_{i}" if col == "" or pd.isna(col) else str(col)`. -/
def renameLabel (i : Nat) (col : PyVal) : PyVal :=
  match col with
  | .na => .str ("Unnamed_" ++ toString i)
  | .str s => if s = "" then .str ("Unnamed_" ++ toString i) else .str s

/-- `renameLabel` applied along `enumerate(df.columns)` starting at
index `i`. -/
def renameFrom (i : Nat) : List PyVal → List PyVal
  | [] => []
  | c :: cs => renameLabel i c :: renameFrom (i + 1) cs

/-- `df.dropna(how='all')`: keep the rows that are not entirely `NaN`. -/
def dropAllNaRows (rows : List (List PyVal)) : List (List PyVal) :=
  rows.filter (fun r => !r.all PyVal.isna)

/-- `ApiClient._clean_bps_dataframe`: flatten a MultiIndex header into
single labels, assign `Unnamed_<index>` to empty or `NaN` labels, drop
all-`NaN` rows and renumber the remaining rows contiguously.  The
surrounding `try ... except` returns the input unchanged if any of this
raises; in this total model no step raises. -/
def cleanBpsDataframe (df : Table) : Table :=
  let cols1 : List PyVal :=
    match df.columns with
    | .multi labels => labels.map flattenLabel
    | .flat labels => labels
  { columns := .flat (renameFrom 0 cols1),
    rows := dropAllNaRows df.rows }

/-- The fallback label `Unnamed_<i>` is never the empty string. -/
theorem unnamed_ne_empty (i : Nat) : ("Unnamed_" ++ toString i) ≠ "" := by
  intro h
  have h2 := congrArg String.length h
  rw [String.length_append] at h2
  have h8 : ("Unnamed_" : String).length = 8 := rfl
  have h0 : ("" : String).length = 0 := rfl
  omega

/-- Renaming a label a second time with the same index changes nothing. -/
theorem renameLabel_idem (i : Nat) (c : PyVal) :
    renameLabel i (renameLabel i c) = renameLabel i c := by
  cases c with
  | na => simp [renameLabel, unnamed_ne_empty i]
  | str s =>
    by_cases hs : s = ""
    · simp [renameLabel, hs, unnamed_ne_empty i]
    · simp [renameLabel, hs]

/-- The positional renaming pass is idempotent. -/
theorem renameFrom_idem (labels : List PyVal) :
    ∀ i : Nat, renameFrom i (renameFrom i labels) = renameFrom i labels := by
  induction labels with
  | nil => intro i; rfl
  | cons c cs ih =>
    intro i
    simp [renameFrom, renameLabel_idem, ih (i + 1)]

/-- Dropping all-`NaN` rows is idempotent. -/
theorem dropAllNaRows_idem (rows : List (List PyVal)) :
    dropAllNaRows (dropAllNaRows rows) = dropAllNaRows rows := by
  simp [dropAllNaRows, List.filter_filter]

/-- C8: `_clean_bps_dataframe` is idempotent on every already-flat
(non-hierarchical-header) non-empty table: cleaning twice equals
cleaning once. -/
theorem cleanBps_idempotent (df : Table) (labels : List PyVal)
    (hflat : df.columns = .flat labels) (_hne : df.rows ≠ []) :
    cleanBpsDataframe (cleanBpsDataframe df) = cleanBpsDataframe df := by
  simp [cleanBpsDataframe, hflat, renameFrom_idem labels 0, dropAllNaRows_idem]

/-- Witness for C8 at a concrete flat two-row table with a `NaN` label,
an empty label and one all-`NaN` row. -/
theorem cleanBps_idempotent_witness :
    cleanBpsDataframe (cleanBpsDataframe
      ⟨.flat [.na, .str "", .str "Produksi"],
       [[.str "ACEH", .str "1", .str "2"], [.na, .na, .na]]⟩) =
    cleanBpsDataframe
      ⟨.flat [.na, .str "", .str "Produksi"],
       [[.str "ACEH", .str "1", .str "2"], [.na, .na, .na]]⟩ :=
  cleanBps_idempotent
    ⟨.flat [.na, .str "", .str "Produksi"],
     [[.str "ACEH", .str "1", .str "2"], [.na, .na, .na]]⟩
    [.na, .str "", .str "Produksi"] rfl (by decide)

/-- An error raised by `download_table`: `ApiTokenError` for a missing
token, the generic "Data tabel kosong" exception, the custom
`FileExistsError` carrying the destination path, or the `ValueError`
for an unsupported format. -/
inductive DownloadErr
  | apiTokenError
  | emptyTable
  | fileExistsError (filepath : String)
  | valueError (format : String)
deriving DecidableEq, Repr

/-- Observable outcome of `download_table`: the returned path or raised
error, and the bytes at the destination path afterwards. -/
structure DownloadOutcome where
  result : Except DownloadErr String
  destBytes : List Nat
deriving DecidableEq, Repr

/-- `ApiClient.download_table`, with the network fetch
(`view_static_table`) abstracted as the already-fetched table `df`, the
serializers (`to_csv`, `to_excel`, `to_json`) abstracted as
`serialize format table`, and the destination state passed in as
`destExists`/`destBytes`.  A missing token raises `ApiTokenError`; an
empty table raises; the table is cleaned; then, if the destination path
exists and `overwrite` is false, `FileExistsError(filepath)` is raised
with nothing written; otherwise the cleaned table is serialized to the
path in the chosen format, an unrecognized format raising `ValueError`. -/
def downloadTable (isReady : Bool) (df : Table) (serialize : String → Table → List Nat)
    (destExists : Bool) (destBytes : List Nat) (filepath : String)
    (format : String) (overwrite : Bool) : DownloadOutcome :=
  if !isReady then ⟨.error .apiTokenError, destBytes⟩
  else if tableEmpty df then ⟨.error .emptyTable, destBytes⟩
  else
    let df_clean := cleanBpsDataframe df
    if destExists && !overwrite then ⟨.error (.fileExistsError filepath), destBytes⟩
    else if format = "csv" then ⟨.ok filepath, serialize "csv" df_clean⟩
    else if format = "xlsx" then ⟨.ok filepath, serialize "xlsx" df_clean⟩
    else if format = "json" then ⟨.ok filepath, serialize "json" df_clean⟩
    else ⟨.error (.valueError format), destBytes⟩

/-- C7: a `download_table` call with `overwrite = false` whose
destination path already exists fails with `FileExistsError` on that
path and leaves the destination bytes unchanged — no write occurs on
this error path, whatever the requested format. -/
theorem download_existing_dest_fails (df : Table) (serialize : String → Table → List Nat)
    (destBytes : List Nat) (filepath : String) (format : String)
    (hne : tableEmpty df = false) :
    downloadTable true df serialize true destBytes filepath format false =
      ⟨.error (.fileExistsError filepath), destBytes⟩ ∧
    (downloadTable true df serialize true destBytes filepath format false).destBytes =
      destBytes := by
  refine ⟨?_, ?_⟩ <;> simp [downloadTable, hne]

/-- Witness for C7 at a concrete one-cell table and a csv request. -/
theorem download_existing_dest_fails_witness :
    downloadTable true ⟨.flat [.str "A"], [[.str "1"]]⟩ (fun _ _ => [0])
        true [7, 7] "out.csv" "csv" false =
      ⟨.error (.fileExistsError "out.csv"), [7, 7]⟩ :=
  (download_existing_dest_fails ⟨.flat [.str "A"], [[.str "1"]]⟩ (fun _ _ => [0])
    [7, 7] "out.csv" "csv" (by decide)).1

end StadataX
